import Mathlib

/-!
A verification development for the s1bursts repository: a shallow embedding
of the burst addressing, byte decoding, footprint construction, metadata
parsing and batch download code, together with theorems settling the
specified properties.

Conventions of the embedding:
* Python floats are modelled as rationals (the float expressions in the
  code are short chains of exact arithmetic on annotation values).
* Python byte strings are modelled as lists of naturals (one per byte).
* Code that can raise an exception is modelled as a function into Option,
  with `none` for any raised exception.
-/

/- Constants from src/bursts.py lines 24-27 (identical in
   src/bursts/bursts.py lines 32-35 and src/s1bursts/utils.py lines 10-13). -/

def NOMINAL_ORBITAL_DURATION : ℚ := 12 * 24 * 3600 / 175

def PREAMBLE_LENGTH : ℚ := 2299849 / 1000000

def BEAM_CYCLE_TIME : ℚ := 2758273 / 1000000

def SPEED_OF_LIGHT : ℚ := 299792458

/- ----------------------------------------------------------------
   Relative burst id (claim C1)
   ---------------------------------------------------------------- -/

/-- Embeds `BurstMetadata.calculate_relative_burstid` from src/bursts.py
lines 202-206: `orbital = (relative_orbit - 1) * NOMINAL_ORBITAL_DURATION`,
`time_distance = burst_anx_delta + orbital`,
`1 + floor((time_distance - PREAMBLE_LENGTH) / BEAM_CYCLE_TIME)`. -/
def calculate_relative_burstid (relative_orbit : ℤ) (burst_anx_delta : ℚ) : ℤ :=
  let orbital : ℚ := (relative_orbit - 1) * NOMINAL_ORBITAL_DURATION
  let time_distance : ℚ := burst_anx_delta + orbital
  1 + ⌊(time_distance - PREAMBLE_LENGTH) / BEAM_CYCLE_TIME⌋

/-- Embeds `BurstMetadata.calculate_relative_burstid` from
src/bursts/bursts.py lines 214-220: the same computation followed by
`relative_burstid += 1` (the in-code comment reads
"TODO relative_burstid is off by one"). -/
def calculate_relative_burstid_v2 (relative_orbit : ℤ) (burst_anx_delta : ℚ) : ℤ :=
  let orbital : ℚ := (relative_orbit - 1) * NOMINAL_ORBITAL_DURATION
  let time_distance : ℚ := burst_anx_delta + orbital
  let relative_burstid : ℤ := 1 + ⌊(time_distance - PREAMBLE_LENGTH) / BEAM_CYCLE_TIME⌋
  relative_burstid + 1

/-- The formula stated by the spec (section 4.2):
`relative_burst_id = 1 + floor((time_distance - PREAMBLE_LENGTH) / BEAM_CYCLE_TIME)`
with `time_distance = burst_azimuth_anx_time + (relative_orbit - 1) * NOMINAL_ORBITAL_DURATION`. -/
def spec_relative_burst_id (relative_orbit : ℤ) (burst_azimuth_anx_time : ℚ) : ℤ :=
  1 + ⌊(burst_azimuth_anx_time + (relative_orbit - 1) * NOMINAL_ORBITAL_DURATION
        - PREAMBLE_LENGTH) / BEAM_CYCLE_TIME⌋

/- ----------------------------------------------------------------
   Remote range read of a zip member (claim C2)
   ---------------------------------------------------------------- -/

/-- A file handle over the decompressed contents of one zip member, as
handed out by `zip_fs.open(interior_path)`: the decompressed byte stream
plus a cursor position. -/
structure ZipMemberFile where
  contents : List Nat
  pos : Nat

/-- Python `f.seek(offset)` (absolute seek; the code never passes a whence
argument). -/
def ZipMemberFile.seek (f : ZipMemberFile) (offset : Nat) : ZipMemberFile :=
  { f with pos := offset }

/-- Python `f.read(n)`: at most `n` bytes from the cursor, fewer at end of
file. -/
def ZipMemberFile.read (f : ZipMemberFile) (n : Nat) : List Nat :=
  (f.contents.drop f.pos).take n

/-- Python `f.read()` with no size argument: the rest of the stream. -/
def ZipMemberFile.readAll (f : ZipMemberFile) : List Nat :=
  f.contents.drop f.pos

/-- Embeds `http_burst` from src/burst_download_trials.py lines 18-28
(also the body of `edl_download_burst` in src/bursts.py lines 409-413 and
src/s1bursts/download.py lines 32-36): open the interior file, seek to
`byte_offset`, read `byte_length` bytes.  `contents` stands for the fully
decompressed interior file behind the url/interior-path pair. -/
def http_burst (contents : List Nat) (byte_offset byte_length : Nat) : List Nat :=
  ((ZipMemberFile.mk contents 0).seek byte_offset).read byte_length

/-- The spec's reference behaviour (section 8): download the whole interior
file and slice `[byte_offset, byte_offset + byte_length)` out of it, as the
Python expression `swath_bytes[byte_offset:byte_offset + byte_length]`
does in `http_swath` (src/burst_download_trials.py line 40). -/
def full_download_slice (contents : List Nat) (byte_offset byte_length : Nat) : List Nat :=
  let swath_bytes := (ZipMemberFile.mk contents 0).readAll
  (swath_bytes.take (byte_offset + byte_length)).drop byte_offset

/- ----------------------------------------------------------------
   Byte decoder (claims C5, C6)
   ---------------------------------------------------------------- -/

/-- Group a list into consecutive pairs; `none` on odd length.  This is the
shared shape of the two numpy reinterpretations in `burst_bytes_to_numpy`:
`np.frombuffer(.., dtype=np.int16)` pairs bytes (raising when the buffer
size is not a multiple of the two-byte element size), and the
`array.dtype = 'complex'` view pairs scalars (raising when the element
count is odd). -/
def pairUp {α : Type} : List α → Option (List (α × α))
  | [] => some []
  | [_] => none
  | a :: b :: rest => (pairUp rest).map (List.cons (a, b))

/-- The little-endian signed 16-bit integer with low byte `lo` and high
byte `hi`, as `np.int16` reads two bytes on the (little-endian) platforms
the code targets. -/
def int16OfLe (lo hi : Nat) : ℤ :=
  let u : Nat := lo % 256 + 256 * (hi % 256)
  if u < 32768 then (u : ℤ) else (u : ℤ) - 65536

/-- Embeds `burst_bytes_to_numpy` from src/bursts.py lines 377-382 (and
src/s1bursts/utils.py lines 41-46, whose extra cast to `np.csingle` is
value-preserving on int16 data): reinterpret the bytes as int16, convert to
float (exact on int16), view as complex pairs, reshape to
`(lines, samples)`.  A complex sample is modelled as its (real, imaginary)
pair of integers; any numpy `ValueError` becomes `none`. -/
def burst_bytes_to_numpy (burst_bytes : List Nat) (lines samples : Nat) :
    Option (List (List (ℤ × ℤ))) :=
  match pairUp burst_bytes with
  | none => none
  | some bytePairs =>
    let ints : List ℤ := bytePairs.map fun p => int16OfLe p.1 p.2
    match pairUp ints with
    | none => none
    | some cplx =>
      if cplx.length = lines * samples then
        some ((List.range lines).map fun i => (cplx.drop (i * samples)).take samples)
      else none

/- ----------------------------------------------------------------
   Burst construction: byte addressing (claims C3, C4, C10)
   ---------------------------------------------------------------- -/

/-- One `<burst>` element of a swath annotation: the fields
`BurstMetadata.__init__` reads from it for byte addressing and identity. -/
structure BurstXml where
  byteOffset : ℤ
  azimuthAnxTime : ℚ

/-- The per-swath values `BurstMetadata.__init__` consumes: the already
extracted scalar fields of the swath/SLC metadata plus the annotation's
burst list (`swath.annotation.findall('.//{*}burst')`). -/
structure SwathCtx where
  relative_orbit : ℤ
  slc_start_anx : ℚ
  bursts : List BurstXml
  linesPerBurst : ℤ
  samplesPerBurst : ℤ

/-- The fields of a constructed burst record relevant to addressing and
identity. -/
structure BurstMetadata where
  burst_index : Nat
  byte_offset : ℤ
  byte_length : ℤ
  lines : ℤ
  samples : ℤ
  burst_anx_delta : ℚ
  burst_anx : ℚ
  relative_burst_id : ℤ

/-- Embeds the addressing fragment of `BurstMetadata.__init__`
(src/bursts.py lines 149-166, identical in src/bursts/bursts.py lines
160-178 up to the burst-id variant): `byte_offset0 = offsets[0]`,
`byte_offset1 = offsets[1]`, `burst_annotation = bursts[burst_index]`,
`byte_offset = burst_annotation.byteOffset`,
`byte_length = byte_offset1 - byte_offset0`, plus the ANX delta and the
relative burst id.  An out-of-range list index (Python `IndexError`) is
`none`.  No validation of the offsets is performed anywhere in the
constructor. -/
def BurstMetadata.mk? (swath : SwathCtx) (burst_index : Nat) : Option BurstMetadata :=
  match swath.bursts[0]?, swath.bursts[1]?, swath.bursts[burst_index]? with
  | some b0, some b1, some ba =>
    some { burst_index := burst_index
           byte_offset := ba.byteOffset
           byte_length := b1.byteOffset - b0.byteOffset
           lines := swath.linesPerBurst
           samples := swath.samplesPerBurst
           burst_anx_delta := ba.azimuthAnxTime
           burst_anx := swath.slc_start_anx + ba.azimuthAnxTime
           relative_burst_id := calculate_relative_burstid swath.relative_orbit ba.azimuthAnxTime }
  | _, _, _ => none

/-- The swath of the spec's section 8 example: declared byte offsets
`[1000, 44000000, 88000000]`. -/
def exampleSwath : SwathCtx :=
  { relative_orbit := 1
    slc_start_anx := 0
    bursts := [⟨1000, 0⟩, ⟨44000000, 0⟩, ⟨88000000, 0⟩]
    linesPerBurst := 1500
    samplesPerBurst := 25000 }

/-- A swath whose adjacent offset strides disagree: 100 - 0 = 100 but
250 - 100 = 150. -/
def inconsistentSwath : SwathCtx :=
  { relative_orbit := 1
    slc_start_anx := 0
    bursts := [⟨0, 0⟩, ⟨100, 0⟩, ⟨250, 0⟩]
    linesPerBurst := 1500
    samplesPerBurst := 25000 }

/-- A swath whose annotation declares a single burst. -/
def singleBurstSwath : SwathCtx :=
  { relative_orbit := 1
    slc_start_anx := 0
    bursts := [⟨1000, 0⟩]
    linesPerBurst := 1500
    samplesPerBurst := 25000 }

/- ----------------------------------------------------------------
   Footprint construction (claim C7)
   ---------------------------------------------------------------- -/

/-- One row of the geolocation grid table built by
`SwathMetadata.create_gcp_df`. -/
structure GridPoint where
  line : ℚ
  pixel : ℚ
  latitude : ℚ
  longitude : ℚ

/-- The lexicographic (line, pixel) order `create_gcp_df` sorts the grid
table by. -/
def gcpLE (p q : GridPoint) : Prop :=
  p.line < q.line ∨ (p.line = q.line ∧ p.pixel ≤ q.pixel)

/-- The coordinate pair a grid point contributes to the footprint ring. -/
def GridPoint.coord (p : GridPoint) : ℚ × ℚ :=
  (p.longitude, p.latitude)

/-- Smallest-enclosing-box fold over ring vertices, seeded at `v`:
shapely's `polygon.bounds` `(minx, miny, maxx, maxy)`. -/
def foldBounds (v : ℚ × ℚ) (rest : List (ℚ × ℚ)) : ℚ × ℚ × ℚ × ℚ :=
  rest.foldl
    (fun b p => (min b.1 p.1, min b.2.1 p.2, max b.2.2.1 p.1, max b.2.2.2 p.2))
    (v.1, v.2, v.1, v.2)

/-- Embeds `BurstMetadata.create_geometry` from src/bursts.py lines
208-220 (identical logic in src/bursts/bursts.py lines 222-235): filter
the grid rows at `line == burst_index * lines` and
`line == (burst_index + 1) * lines`, take longitudes and latitudes,
reverse the second row's lists, concatenate, zip, and build the shapely
polygon.  The result is the polygon's closed exterior ring (shapely
repeats the first vertex at the end) and its bounds; shapely raises for
fewer than three vertices, hence `none`. -/
def create_geometry (gcp : List GridPoint) (burst_index : Nat) (lines : ℤ) :
    Option (List (ℚ × ℚ) × (ℚ × ℚ × ℚ × ℚ)) :=
  let first_line := gcp.filter fun p => p.line = ((burst_index * lines : ℤ) : ℚ)
  let second_line := gcp.filter fun p => p.line = (((burst_index + 1 : ℤ) * lines : ℤ) : ℚ)
  let x1 := first_line.map GridPoint.longitude
  let y1 := first_line.map GridPoint.latitude
  let x2 := (second_line.map GridPoint.longitude).reverse
  let y2 := (second_line.map GridPoint.latitude).reverse
  let ring := (x1 ++ x2).zip (y1 ++ y2)
  match ring with
  | [] => none
  | v :: rest =>
    if rest.length < 2 then none
    else some ((v :: rest) ++ [v], foldBounds v rest)

/-- The vertex sequence the spec describes (section 4.2 (c)): the first
row's (longitude, latitude) pairs in stored (pixel) order, then the second
row's in reverse, with the ring closed back to the first vertex. -/
def spec_footprint_vertices (row1 row2 : List (ℚ × ℚ)) : List (ℚ × ℚ) :=
  let ring := row1 ++ row2.reverse
  ring ++ ring.take 1

/-- A synthetic 2x2 geolocation grid: lines 0 and 100, pixels 0 and 10,
with distinct hand-picked coordinates. -/
def grid2x2 : List GridPoint :=
  [ { line := 0, pixel := 0, latitude := 10, longitude := 1 }
  , { line := 0, pixel := 10, latitude := 11, longitude := 2 }
  , { line := 100, pixel := 0, latitude := 12, longitude := 3 }
  , { line := 100, pixel := 10, latitude := 13, longitude := 4 } ]

/- ----------------------------------------------------------------
   Manifest and annotation parsing (claim C8)
   ---------------------------------------------------------------- -/

/-- The manifest fields `SLCMetadata.__init__` extracts.  A `findall`
result is a list (indexing an empty one raises `IndexError`); a `findtext`
result is `none` when the path is absent (the subsequent `float(...)`,
`.lower()` etc. then raise). -/
structure ManifestXml where
  relativeOrbitNumber : List ℤ
  orbitNumber : List ℤ
  passDirection : Option String
  startTimeANX : Option ℚ
  swathCount : Nat

/-- The product-level values extracted by `SLCMetadata.__init__`. -/
structure SLCMetadata where
  relative_orbit : ℤ
  absolute_orbit : ℤ
  orbit_direction : String
  slc_start_anx : ℚ
  n_swaths : Nat

/-- Embeds the manifest extraction of `SLCMetadata.__init__`
(src/bursts.py lines 51-56): `findall('relativeOrbitNumber')[0]`,
`findall('orbitNumber')[0]`, `findtext('pass').lower()`,
`float(findtext('startTimeANX'))`, `len(findall('swath'))`.  Any absent
required path raises (`IndexError` on the empty `findall` list,
`AttributeError`/`TypeError` on the `None` returned by `findtext`),
modelled as `none`. -/
def SLCMetadata.mk? (m : ManifestXml) : Option SLCMetadata :=
  match m.relativeOrbitNumber[0]?, m.orbitNumber[0]?, m.passDirection, m.startTimeANX with
  | some ro, some ao, some pd, some anx =>
    some { relative_orbit := ro
           absolute_orbit := ao
           orbit_direction := pd.toLower
           slc_start_anx := anx
           n_swaths := m.swathCount }
  | _, _, _, _ => none

/-- The swath-annotation fields `SwathMetadata.__init__` extracts
(src/bursts.py lines 87-101), each `none` when the XML path is absent. -/
structure AnnotationXml where
  burstListCount : Option ℕ
  radarFrequency : Option ℚ
  azimuthSteeringRate : Option ℚ
  azimuthTimeInterval : Option ℚ
  slantRangeTime : Option ℚ
  rangeSamplingRate : Option ℚ
  processingBandwidth : Option ℚ
  windowType : Option String
  windowCoefficient : Option ℚ
  rank : Option ℤ
  prf : Option ℚ
  txPulseRampRate : Option ℚ

/-- The per-swath scalar values extracted by `SwathMetadata.__init__`
(src/bursts.py lines 87-101), with its derived quantities. -/
structure SwathMetadata where
  n_bursts : ℕ
  radar_center_frequency : ℚ
  wavelength : ℚ
  azimuth_steer_rate : ℚ
  azimuth_time_interval : ℚ
  slant_range_time : ℚ
  starting_range : ℚ
  range_sampling_rate : ℚ
  range_bandwidth : ℚ
  window_type : String
  range_window_coefficient : ℚ
  rank : ℤ
  prf_raw_data : ℚ
  range_chirp_rate : ℚ

/-- Embeds the annotation extraction of `SwathMetadata.__init__`
(src/bursts.py lines 87-101): every field is read with `find`/`findtext`
and immediately converted (`int(...)`, `float(...)`, `.lower()`), so an
absent path raises (`AttributeError` on `None.attrib`, `TypeError` on
`float(None)`), modelled as `none`; present values are carried through
unchanged (`wavelength` and `starting_range` are the derived expressions
of lines 89 and 93). -/
def SwathMetadata.mk? (a : AnnotationXml) : Option SwathMetadata :=
  match a.burstListCount, a.radarFrequency, a.azimuthSteeringRate, a.azimuthTimeInterval,
      a.slantRangeTime, a.rangeSamplingRate, a.processingBandwidth, a.windowType,
      a.windowCoefficient, a.rank, a.prf, a.txPulseRampRate with
  | some nb, some rf, some sr, some ati, some srt, some rsr, some pb, some wt,
      some wc, some rk, some prf, some tx =>
    some { n_bursts := nb
           radar_center_frequency := rf
           wavelength := rf / SPEED_OF_LIGHT
           azimuth_steer_rate := sr
           azimuth_time_interval := ati
           slant_range_time := srt
           starting_range := srt * SPEED_OF_LIGHT / 2
           range_sampling_rate := rsr
           range_bandwidth := pb
           window_type := wt.toLower
           range_window_coefficient := wc
           rank := rk
           prf_raw_data := prf
           range_chirp_rate := tx }
  | _, _, _, _, _, _, _, _, _, _, _, _ => none

/-- States that at least one required manifest path is absent. -/
def manifestMissingRequired (m : ManifestXml) : Prop :=
  m.relativeOrbitNumber = [] ∨ m.orbitNumber = [] ∨
    m.passDirection = none ∨ m.startTimeANX = none

/-- States that at least one required annotation path is absent. -/
def annotationMissingRequired (a : AnnotationXml) : Prop :=
  a.burstListCount = none ∨ a.radarFrequency = none ∨ a.azimuthSteeringRate = none ∨
    a.azimuthTimeInterval = none ∨ a.slantRangeTime = none ∨ a.rangeSamplingRate = none ∨
    a.processingBandwidth = none ∨ a.windowType = none ∨ a.windowCoefficient = none ∨
    a.rank = none ∨ a.prf = none ∨ a.txPulseRampRate = none

/- ----------------------------------------------------------------
   Batch download (claim C9)
   ---------------------------------------------------------------- -/

/-- The asset dictionary attached to a burst STAC item
(`BurstMetadata.to_stac_item`): everything `edl_download_burst` reads. -/
structure Asset where
  href : String
  interior_path : String
  lines : Nat
  samples : Nat
  byte_offset : Nat
  byte_length : Nat

/-- A burst STAC item: identity plus its asset. -/
structure Item where
  id : String
  asset : Asset

/-- `pqdm(args, fn, n_jobs=threads)` from the pqdm.threads module: runs
`fn` on every argument under a worker pool and collects the results in
argument order. -/
def pqdm {α β : Type} (args : List α) (fn : α → β) : List β :=
  args.map fn

/-- Embeds `edl_download_burst` (src/bursts.py lines 400-417,
src/s1bursts/download.py lines 23-40): read the asset's shape and byte
range, open the interior file behind the remote archive, seek to
`byte_offset`, read `byte_length` bytes and decode them.  `remote` maps a
(url, interior path) pair to the decompressed interior file contents. -/
def edl_download_burst (remote : String → String → List Nat) (item : Item) :
    Option (List (List (ℤ × ℤ))) :=
  let asset := item.asset
  let contents := remote asset.href asset.interior_path
  let burst_bytes := http_burst contents asset.byte_offset asset.byte_length
  burst_bytes_to_numpy burst_bytes asset.lines asset.samples

/-- Embeds `edl_download_stack` (src/bursts.py lines 420-435,
src/s1bursts/download.py lines 43-58): when `threads` is truthy the bursts
are fetched through the `pqdm` worker pool, otherwise serially by list
comprehension; the results are then keyed by item identity.  `none` and
`0` are falsy in the Python `if threads:` test. -/
def edl_download_stack (remote : String → String → List Nat) (item_list : List Item)
    (threads : Option Nat) : List (String × Option (List (List (ℤ × ℤ)))) :=
  let data_arrays :=
    match threads with
    | some (_ + 1) => pqdm item_list (edl_download_burst remote)
    | _ => item_list.map (edl_download_burst remote)
  (item_list.map Item.id).zip data_arrays

/-- A fixture remote archive for the batch-download witness. -/
def demoRemote : String → String → List Nat :=
  fun _ _ => [1, 0, 2, 0]

/-- A fixture item whose asset addresses the four bytes of `demoRemote`. -/
def demoItem : Item :=
  { id := "b", asset := { href := "u", interior_path := "p", lines := 1, samples := 1,
                          byte_offset := 0, byte_length := 4 } }

/-- Eight fixture items. -/
def demoItems : List Item :=
  List.replicate 8 demoItem

/-- A manifest whose required `startTimeANX` path is absent. -/
def demoManifestMissing : ManifestXml :=
  { relativeOrbitNumber := [64]
    orbitNumber := [25050]
    passDirection := some "DESCENDING"
    startTimeANX := none
    swathCount := 3 }

/- ----------------------------------------------------------------
   Helper lemmas
   ---------------------------------------------------------------- -/

theorem pairUp_some_length {α : Type} :
    ∀ (l : List α) (r : List (α × α)), pairUp l = some r → l.length = 2 * r.length
  | [], r, h => by
    simp only [pairUp, Option.some.injEq] at h
    subst h
    simp
  | [_], r, h => by simp [pairUp] at h
  | _ :: _ :: rest, r, h => by
    simp only [pairUp, Option.map_eq_some'] at h
    obtain ⟨r', hr', rfl⟩ := h
    have ih := pairUp_some_length rest r' hr'
    simp only [List.length_cons, ih]
    ring

theorem pairUp_of_even {α : Type} :
    ∀ l : List α, l.length % 2 = 0 → ∃ r, pairUp l = some r
  | [], _ => ⟨[], rfl⟩
  | [_], h => by simp at h
  | a :: b :: rest, h => by
    have h2 : rest.length % 2 = 0 := by
      simp only [List.length_cons] at h
      omega
    obtain ⟨r, hr⟩ := pairUp_of_even rest h2
    exact ⟨(a, b) :: r, by simp [pairUp, hr]⟩

theorem pairUp_getElem? {α : Type} :
    ∀ (l : List α) (r : List (α × α)), pairUp l = some r →
      ∀ (k : Nat) (p : α × α), r[k]? = some p →
        l[2 * k]? = some p.1 ∧ l[2 * k + 1]? = some p.2
  | [], r, h, k, p, hk => by
    simp only [pairUp, Option.some.injEq] at h
    subst h
    simp at hk
  | [_], r, h, _, _, _ => by simp [pairUp] at h
  | a :: b :: rest, r, h, k, p, hk => by
    simp only [pairUp, Option.map_eq_some'] at h
    obtain ⟨r', hr', rfl⟩ := h
    cases k with
    | zero =>
      simp only [List.getElem?_cons_zero, Option.some.injEq] at hk
      subst hk
      simp
    | succ k =>
      have ih := pairUp_getElem? rest r' hr' k p (by simpa using hk)
      have e1 : 2 * (k + 1) = 2 * k + 1 + 1 := by ring
      have e2 : 2 * (k + 1) + 1 = (2 * k + 1) + 1 + 1 := by ring
      constructor
      · rw [e1]
        simpa using ih.1
      · rw [e2]
        simpa using ih.2

/- ----------------------------------------------------------------
   Claim C1
   ---------------------------------------------------------------- -/

/-- C1 counterexample: the claim says both implementations of
`calculate_relative_burstid` compute exactly
`1 + floor((time_distance - PREAMBLE_LENGTH) / BEAM_CYCLE_TIME)`; at
relative orbit 1 and burst ANX time 10 s the src/bursts/bursts.py
implementation disagrees with that formula (it is larger by one). -/
theorem relative_burstid_v2_ne_spec :
    calculate_relative_burstid_v2 1 10 ≠ spec_relative_burst_id 1 10 := by
  simp only [calculate_relative_burstid_v2, spec_relative_burst_id]
  omega

/-- C1 (amended): the src/bursts.py implementation of
`calculate_relative_burstid` computes exactly
`1 + floor((burst_azimuth_anx_time + (relative_orbit - 1) *
NOMINAL_ORBITAL_DURATION - PREAMBLE_LENGTH) / BEAM_CYCLE_TIME)`, while the
src/bursts/bursts.py implementation computes that value plus one (its
deliberate `+= 1` adjustment). -/
theorem relative_burstid_formula (relative_orbit : ℤ) (burst_anx_delta : ℚ) :
    calculate_relative_burstid relative_orbit burst_anx_delta
        = spec_relative_burst_id relative_orbit burst_anx_delta ∧
    calculate_relative_burstid_v2 relative_orbit burst_anx_delta
        = spec_relative_burst_id relative_orbit burst_anx_delta + 1 := by
  constructor
  · rfl
  · simp only [calculate_relative_burstid_v2, spec_relative_burst_id]

/- ----------------------------------------------------------------
   Claim C2
   ---------------------------------------------------------------- -/

/-- C2: the range-based burst fetch (seek to `byte_offset`, read
`byte_length` bytes) returns exactly the slice
`[byte_offset, byte_offset + byte_length)` of the fully decompressed
interior file — byte-identical to downloading the whole interior file and
slicing that range out of it — and when the range lies inside the file the
returned value has length `byte_length`. -/
theorem http_burst_eq_full_download_slice (contents : List Nat)
    (byte_offset byte_length : Nat) :
    http_burst contents byte_offset byte_length
        = full_download_slice contents byte_offset byte_length ∧
    (byte_offset + byte_length ≤ contents.length →
      (http_burst contents byte_offset byte_length).length = byte_length) := by
  constructor
  · simp only [http_burst, full_download_slice, ZipMemberFile.seek, ZipMemberFile.read,
      ZipMemberFile.readAll, List.drop_zero]
    rw [List.drop_take]
    congr 1
    omega
  · intro h
    simp only [http_burst, ZipMemberFile.seek, ZipMemberFile.read]
    rw [List.length_take, List.length_drop]
    omega

/-- C2 witness: the range fetch on a concrete four-byte interior file. -/
theorem http_burst_eq_full_download_slice_witness :
    http_burst [7, 8, 9, 10] 1 2 = full_download_slice [7, 8, 9, 10] 1 2 ∧
    (http_burst [7, 8, 9, 10] 1 2).length = 2 :=
  ⟨(http_burst_eq_full_download_slice [7, 8, 9, 10] 1 2).1,
   (http_burst_eq_full_download_slice [7, 8, 9, 10] 1 2).2 (by decide)⟩

/- ----------------------------------------------------------------
   Claim C5
   ---------------------------------------------------------------- -/

/-- C5: whenever the input length is not exactly
`lines * samples * 2 * 2` bytes, the byte decoder fails (every such numpy
path raises, modelled as `none`); it never silently truncates or pads. -/
theorem burst_bytes_to_numpy_shape_mismatch (burst_bytes : List Nat) (lines samples : Nat)
    (h : burst_bytes.length ≠ lines * samples * 2 * 2) :
    burst_bytes_to_numpy burst_bytes lines samples = none := by
  cases hres : burst_bytes_to_numpy burst_bytes lines samples with
  | none => rfl
  | some M =>
    exfalso
    apply h
    unfold burst_bytes_to_numpy at hres
    cases h1 : pairUp burst_bytes with
    | none => rw [h1] at hres; simp at hres
    | some bp =>
      simp only [h1] at hres
      cases h2 : pairUp (bp.map fun p => int16OfLe p.1 p.2) with
      | none => simp only [h2] at hres; simp at hres
      | some cplx =>
        simp only [h2] at hres
        split_ifs at hres with hc
        have l1 := pairUp_some_length _ _ h1
        have l2 := pairUp_some_length _ _ h2
        rw [List.length_map] at l2
        set m := lines * samples
        omega

/-- C5 witness: the decoder rejects a `lines*samples*4 - 1`-byte input
(three bytes for a one-line, one-sample burst). -/
theorem burst_bytes_to_numpy_shape_mismatch_witness :
    burst_bytes_to_numpy [0, 0, 0] 1 1 = none :=
  burst_bytes_to_numpy_shape_mismatch [0, 0, 0] 1 1 (by decide)

/- ----------------------------------------------------------------
   Claim C6
   ---------------------------------------------------------------- -/

/-- C6: on any input of length exactly `lines * samples * 2 * 2` the byte
decoder succeeds and returns a `lines x samples` array whose element at
row `i`, column `j` has real part the little-endian signed 16-bit integer
at byte position `4*(i*samples + j)` and imaginary part the one at byte
position `4*(i*samples + j) + 2`; the output depends on nothing but the
bytes and the shape (the decoder is a pure function in the embedding). -/
theorem burst_bytes_to_numpy_values (burst_bytes : List Nat) (lines samples : Nat)
    (h : burst_bytes.length = lines * samples * 2 * 2) :
    ∃ M, burst_bytes_to_numpy burst_bytes lines samples = some M ∧
      M.length = lines ∧
      ∀ i j, i < lines → j < samples →
        ∃ row, M[i]? = some row ∧ row.length = samples ∧
          row[j]? = some
            (int16OfLe (burst_bytes.getD (4 * (i * samples + j)) 0)
                       (burst_bytes.getD (4 * (i * samples + j) + 1) 0),
             int16OfLe (burst_bytes.getD (4 * (i * samples + j) + 2) 0)
                       (burst_bytes.getD (4 * (i * samples + j) + 3) 0)) := by
  have heven : burst_bytes.length % 2 = 0 := by
    rw [h]
    have e : lines * samples * 2 * 2 = 2 * (lines * samples * 2) := by ring
    rw [e]
    exact Nat.mul_mod_right 2 _
  obtain ⟨bp, h1⟩ := pairUp_of_even burst_bytes heven
  have l1 := pairUp_some_length _ _ h1
  have hbp : bp.length = lines * samples * 2 := by
    have l1' := l1
    rw [h] at l1'
    have e : lines * samples * 2 * 2 = 2 * (lines * samples * 2) := by ring
    rw [e] at l1'
    exact (Nat.eq_of_mul_eq_mul_left (by norm_num) l1').symm
  have heven2 : (bp.map fun p => int16OfLe p.1 p.2).length % 2 = 0 := by
    rw [List.length_map, hbp]
    exact Nat.mul_mod_left _ 2
  obtain ⟨cplx, h2⟩ := pairUp_of_even (bp.map fun p => int16OfLe p.1 p.2) heven2
  have l2 := pairUp_some_length _ _ h2
  rw [List.length_map] at l2
  have hcplx : cplx.length = lines * samples := by
    have h2' : 2 * cplx.length = 2 * (lines * samples) := by
      rw [← l2, hbp]
      ring
    exact Nat.eq_of_mul_eq_mul_left (by norm_num) h2'
  have hM : burst_bytes_to_numpy burst_bytes lines samples
      = some ((List.range lines).map fun i => (cplx.drop (i * samples)).take samples) := by
    unfold burst_bytes_to_numpy
    simp only [h1, h2]
    rw [if_pos hcplx]
  refine ⟨_, hM, by simp, ?_⟩
  intro i j hi hj
  have key : i * samples + samples ≤ lines * samples := by
    have h1' : (i + 1) * samples ≤ lines * samples := Nat.mul_le_mul_right samples hi
    calc i * samples + samples = (i + 1) * samples := by ring
    _ ≤ lines * samples := h1'
  have hk : i * samples + j < lines * samples :=
    lt_of_lt_of_le (Nat.add_lt_add_left hj _) key
  refine ⟨(cplx.drop (i * samples)).take samples, ?_, ?_, ?_⟩
  · rw [List.getElem?_map]
    simp [List.getElem?_range, hi]
  · rw [List.length_take, List.length_drop, hcplx]
    have key' : samples + i * samples ≤ lines * samples := by
      rw [Nat.add_comm]
      exact key
    exact min_eq_left (Nat.le_sub_of_add_le key')
  · rw [List.getElem?_take_of_lt hj, List.getElem?_drop]
    have hkc : i * samples + j < cplx.length := by
      rw [hcplx]
      exact hk
    set k := i * samples + j with hkdef
    rw [List.getElem?_eq_getElem hkc]
    obtain ⟨hint1, hint2⟩ := pairUp_getElem? _ _ h2 k (cplx[k]) (List.getElem?_eq_getElem hkc)
    rw [List.getElem?_map] at hint1 hint2
    obtain ⟨q1, hq1, hfq1⟩ := Option.map_eq_some'.mp hint1
    obtain ⟨q2, hq2, hfq2⟩ := Option.map_eq_some'.mp hint2
    obtain ⟨hb1, hb2⟩ := pairUp_getElem? _ _ h1 (2 * k) q1 hq1
    obtain ⟨hb3, hb4⟩ := pairUp_getElem? _ _ h1 (2 * k + 1) q2 hq2
    have e1 : 2 * (2 * k) = 4 * k := by ring
    have e2 : 2 * (2 * k) + 1 = 4 * k + 1 := by ring
    have e3 : 2 * (2 * k + 1) = 4 * k + 2 := by ring
    have e4 : 2 * (2 * k + 1) + 1 = 4 * k + 3 := by ring
    rw [e1] at hb1
    rw [e2] at hb2
    rw [e3] at hb3
    rw [e4] at hb4
    rw [List.getD_eq_getElem?_getD, List.getD_eq_getElem?_getD, List.getD_eq_getElem?_getD,
      List.getD_eq_getElem?_getD, hb1, hb2, hb3, hb4]
    simp only [Option.getD_some]
    have hfq1' : int16OfLe q1.1 q1.2 = (cplx[k]).1 := hfq1
    have hfq2' : int16OfLe q2.1 q2.2 = (cplx[k]).2 := hfq2
    have hpair : cplx[k] = ((cplx[k]).1, (cplx[k]).2) := rfl
    rw [hpair, ← hfq1', ← hfq2']

/-- C6 witness: decoding the four bytes `[1, 0, 2, 0]` as a one-line,
one-sample burst yields the complex sample (1, 2) at row 0, column 0. -/
theorem burst_bytes_to_numpy_values_witness :
    ∃ M, burst_bytes_to_numpy [1, 0, 2, 0] 1 1 = some M ∧
      M.length = 1 ∧
      ∀ i j, i < 1 → j < 1 →
        ∃ row, M[i]? = some row ∧ row.length = 1 ∧
          row[j]? = some
            (int16OfLe (List.getD [1, 0, 2, 0] (4 * (i * 1 + j)) 0)
                       (List.getD [1, 0, 2, 0] (4 * (i * 1 + j) + 1) 0),
             int16OfLe (List.getD [1, 0, 2, 0] (4 * (i * 1 + j) + 2) 0)
                       (List.getD [1, 0, 2, 0] (4 * (i * 1 + j) + 3) 0)) :=
  burst_bytes_to_numpy_values [1, 0, 2, 0] 1 1 (by decide)

/- ----------------------------------------------------------------
   Burst construction helpers
   ---------------------------------------------------------------- -/

theorem mk?_byte_length (s : SwathCtx) (b0 b1 : BurstXml) (rest : List BurstXml)
    (hb : s.bursts = b0 :: b1 :: rest) (i : Nat) (b : BurstMetadata)
    (h : BurstMetadata.mk? s i = some b) :
    b.byte_length = b1.byteOffset - b0.byteOffset := by
  unfold BurstMetadata.mk? at h
  rw [hb] at h
  cases hba : (b0 :: b1 :: rest)[i]? with
  | none =>
    rw [hba] at h
    simp at h
  | some ba =>
    rw [hba] at h
    simp only [List.getElem?_cons_zero, List.getElem?_cons_succ, Option.some.injEq] at h
    rw [← h]

theorem mk?_isSome (s : SwathCtx) (b0 b1 : BurstXml) (rest : List BurstXml)
    (hb : s.bursts = b0 :: b1 :: rest) (i : Nat) (hi : i < s.bursts.length) :
    ∃ b, BurstMetadata.mk? s i = some b := by
  unfold BurstMetadata.mk?
  rw [hb]
  have hi' : i < (b0 :: b1 :: rest).length := by
    rw [hb] at hi
    exact hi
  rw [List.getElem?_eq_getElem hi']
  simp only [List.getElem?_cons_zero, List.getElem?_cons_succ]
  exact ⟨_, rfl⟩

/- ----------------------------------------------------------------
   Claim C3
   ---------------------------------------------------------------- -/

/-- C3: for a swath whose annotation declares at least two bursts, every
successfully constructed burst gets the same `byte_length`, equal to
`byteOffset[1] - byteOffset[0]` (the stride between the first two declared
bursts) independently of the burst index; and for declared byte offsets
`[1000, 44000000, 88000000]` every burst gets `byte_length` 43999000. -/
theorem byte_length_is_first_pair_stride :
    (∀ (s : SwathCtx) (b0 b1 : BurstXml) (rest : List BurstXml) (i : Nat) (b : BurstMetadata),
        s.bursts = b0 :: b1 :: rest → BurstMetadata.mk? s i = some b →
          b.byte_length = b1.byteOffset - b0.byteOffset) ∧
    (∀ (s : SwathCtx) (i j : Nat) (b b' : BurstMetadata),
        BurstMetadata.mk? s i = some b → BurstMetadata.mk? s j = some b' →
          b.byte_length = b'.byte_length) ∧
    (∀ i, i < 3 → (BurstMetadata.mk? exampleSwath i).map BurstMetadata.byte_length
        = some 43999000) := by
  refine ⟨?_, ?_, ?_⟩
  · intro s b0 b1 rest i b hb h
    exact mk?_byte_length s b0 b1 rest hb i b h
  · intro s i j b b' hb hb'
    cases hs : s.bursts with
    | nil =>
      exfalso
      unfold BurstMetadata.mk? at hb
      rw [hs] at hb
      simp at hb
    | cons c0 tail =>
      cases tail with
      | nil =>
        exfalso
        unfold BurstMetadata.mk? at hb
        rw [hs] at hb
        simp at hb
      | cons c1 rest =>
        rw [mk?_byte_length s c0 c1 rest hs i b hb,
          mk?_byte_length s c0 c1 rest hs j b' hb']
  · decide

/-- C3 witness: the first-pair stride for the spec's example offsets. -/
theorem byte_length_is_first_pair_stride_witness :
    (BurstMetadata.mk? exampleSwath 2).map BurstMetadata.byte_length = some 43999000 :=
  byte_length_is_first_pair_stride.2.2 2 (by decide)

/- ----------------------------------------------------------------
   Claim C4
   ---------------------------------------------------------------- -/

/-- C4 counterexample: the claim says a swath whose adjacent strides
disagree is rejected with a fatal error; on the concrete offsets
`[0, 100, 250]` (strides 100 and 150 disagree) burst construction instead
succeeds and silently assigns the first-pair stride 100. -/
theorem inconsistent_layout_not_rejected :
    ((250 : ℤ) - 100 ≠ 100 - 0) ∧
    (BurstMetadata.mk? inconsistentSwath 2).isSome = true ∧
    (BurstMetadata.mk? inconsistentSwath 2).map BurstMetadata.byte_length = some 100 := by
  refine ⟨by decide, ?_, ?_⟩ <;> decide

/-- C4 (amended): no stride validation exists in `BurstMetadata.__init__`;
for every swath with at least two declared bursts and every in-range burst
index, construction succeeds and the burst silently receives the stride
between the first two declared offsets, whether or not the other adjacent
pairs agree with it. -/
theorem no_stride_validation (s : SwathCtx) (b0 b1 : BurstXml) (rest : List BurstXml)
    (hb : s.bursts = b0 :: b1 :: rest) (i : Nat) (hi : i < s.bursts.length) :
    ∃ b, BurstMetadata.mk? s i = some b ∧
      b.byte_length = b1.byteOffset - b0.byteOffset := by
  obtain ⟨b, hbs⟩ := mk?_isSome s b0 b1 rest hb i hi
  exact ⟨b, hbs, mk?_byte_length s b0 b1 rest hb i b hbs⟩

/-- C4 witness: instantiating the amended theorem on the inconsistent
swath. -/
theorem no_stride_validation_witness :
    ∃ b, BurstMetadata.mk? inconsistentSwath 2 = some b ∧
      b.byte_length = (100 : ℤ) - 0 :=
  no_stride_validation inconsistentSwath ⟨0, 0⟩ ⟨100, 0⟩ [⟨250, 0⟩] rfl 2 (by decide)

/- ----------------------------------------------------------------
   Claim C10
   ---------------------------------------------------------------- -/

/-- C10: the byte-length computation indexes the first and second entries
of the annotation's burst list unconditionally, so constructing any
`BurstMetadata` from a swath with fewer than two declared bursts fails,
and a successful construction implies the burst list has at least two
entries. -/
theorem burst_construction_requires_two_bursts :
    (∀ (s : SwathCtx) (i : Nat), s.bursts.length < 2 → BurstMetadata.mk? s i = none) ∧
    (∀ (s : SwathCtx) (i : Nat) (b : BurstMetadata),
        BurstMetadata.mk? s i = some b → 2 ≤ s.bursts.length) := by
  constructor
  · intro s i h
    cases hs : s.bursts with
    | nil =>
      unfold BurstMetadata.mk?
      rw [hs]
      simp
    | cons c0 tail =>
      cases tail with
      | nil =>
        unfold BurstMetadata.mk?
        rw [hs]
        simp
      | cons c1 rest =>
        exfalso
        rw [hs] at h
        simp at h
        omega
  · intro s i b h
    cases hs : s.bursts with
    | nil =>
      exfalso
      unfold BurstMetadata.mk? at h
      rw [hs] at h
      simp at h
    | cons c0 tail =>
      cases tail with
      | nil =>
        exfalso
        unfold BurstMetadata.mk? at h
        rw [hs] at h
        simp at h
      | cons c1 rest =>
        simp only [List.length_cons]
        omega

/-- C10 witness: construction from a single-burst swath fails. -/
theorem burst_construction_requires_two_bursts_witness :
    BurstMetadata.mk? singleBurstSwath 0 = none :=
  burst_construction_requires_two_bursts.1 singleBurstSwath 0 (by decide)

/- ----------------------------------------------------------------
   Footprint helpers
   ---------------------------------------------------------------- -/

theorem zip_lon_lat (r1 r2 : List GridPoint) :
    ((r1.map GridPoint.longitude ++ (r2.map GridPoint.longitude).reverse).zip
        (r1.map GridPoint.latitude ++ (r2.map GridPoint.latitude).reverse))
      = r1.map GridPoint.coord ++ (r2.map GridPoint.coord).reverse := by
  rw [List.zip_append (by simp)]
  rw [← List.map_reverse, ← List.map_reverse, List.zip_map', List.zip_map', List.map_reverse]
  rfl

/- ----------------------------------------------------------------
   Claim C7
   ---------------------------------------------------------------- -/

/-- C7: the footprint ring built by `create_geometry` is exactly the
(longitude, latitude) pairs of the grid row at
`line = burst_index * lines` in stored order, followed by the row at
`line = (burst_index + 1) * lines` in reverse order, closed back to the
first vertex; in a grid table sorted by (line, pixel) — as
`create_gcp_df` produces — the stored order of each row is ascending
pixel order; and on the synthetic 2x2 grid the vertex order and bounding
box match the hand computation exactly. -/
theorem create_geometry_vertices :
    (∀ (gcp : List GridPoint) (burst_index : Nat) (lines : ℤ)
        (ring : List (ℚ × ℚ)) (bnds : ℚ × ℚ × ℚ × ℚ),
        create_geometry gcp burst_index lines = some (ring, bnds) →
          ring = spec_footprint_vertices
            ((gcp.filter fun p => p.line = ((burst_index * lines : ℤ) : ℚ)).map GridPoint.coord)
            ((gcp.filter fun p =>
                p.line = (((burst_index + 1 : ℤ) * lines : ℤ) : ℚ)).map GridPoint.coord)) ∧
    (∀ gcp : List GridPoint, gcp.Pairwise gcpLE →
        ∀ l : ℚ, ((gcp.filter fun p => p.line = l).map GridPoint.pixel).Pairwise (· ≤ ·)) ∧
    (create_geometry grid2x2 0 100
        = some ([(1, 10), (2, 11), (4, 13), (3, 12), (1, 10)], (1, 10, 4, 13))) := by
  refine ⟨?_, ?_, ?_⟩
  · intro gcp burst_index lines ring bnds h
    unfold create_geometry at h
    simp only [] at h
    rw [zip_lon_lat] at h
    unfold spec_footprint_vertices
    split at h
    · simp at h
    · next v rest heq =>
      split_ifs at h with hlen
      simp only [Option.some.injEq, Prod.mk.injEq] at h
      rw [heq, ← h.1]
      simp
  · intro gcp hps l
    rw [List.pairwise_map]
    have hf : (gcp.filter fun p => p.line = l).Pairwise gcpLE :=
      List.Pairwise.filter _ hps
    refine hf.imp_of_mem ?_
    intro a b ha hb hab
    have ha' : a.line = l := of_decide_eq_true (List.mem_filter.mp ha).2
    have hb' : b.line = l := of_decide_eq_true (List.mem_filter.mp hb).2
    rcases hab with hlt | ⟨_, hle⟩
    · exact absurd (ha'.trans hb'.symm) (ne_of_lt hlt)
    · exact hle
  · decide

/-- C7 witness: the general vertex-order statement instantiated on the
synthetic 2x2 grid. -/
theorem create_geometry_vertices_witness :
    [((1 : ℚ), (10 : ℚ)), (2, 11), (4, 13), (3, 12), (1, 10)]
      = spec_footprint_vertices
          ((grid2x2.filter fun p => p.line = (((0 : Nat) * (100 : ℤ) : ℤ) : ℚ)).map
            GridPoint.coord)
          ((grid2x2.filter fun p =>
              p.line = ((((0 : Nat) + 1 : ℤ) * (100 : ℤ) : ℤ) : ℚ)).map GridPoint.coord) :=
  create_geometry_vertices.1 grid2x2 0 100 [(1, 10), (2, 11), (4, 13), (3, 12), (1, 10)]
    (1, 10, 4, 13) (by decide)

/- ----------------------------------------------------------------
   Metadata parsing helpers
   ---------------------------------------------------------------- -/

theorem SLC_mk?_fields (m : ManifestXml) (s : SLCMetadata)
    (h : SLCMetadata.mk? m = some s) :
    m.relativeOrbitNumber[0]? = some s.relative_orbit ∧
    m.orbitNumber[0]? = some s.absolute_orbit ∧
    (∃ pd, m.passDirection = some pd ∧ s.orbit_direction = pd.toLower) ∧
    m.startTimeANX = some s.slc_start_anx ∧
    s.n_swaths = m.swathCount := by
  unfold SLCMetadata.mk? at h
  split at h
  · next ro ao pd anx h0 h1 h2 h3 =>
    simp only [Option.some.injEq] at h
    subst h
    exact ⟨h0, h1, ⟨pd, h2, rfl⟩, h3, rfl⟩
  · simp at h

theorem Swath_mk?_fields (a : AnnotationXml) (s : SwathMetadata)
    (h : SwathMetadata.mk? a = some s) :
    a.burstListCount = some s.n_bursts ∧
    a.radarFrequency = some s.radar_center_frequency ∧
    a.azimuthSteeringRate = some s.azimuth_steer_rate ∧
    a.azimuthTimeInterval = some s.azimuth_time_interval ∧
    a.slantRangeTime = some s.slant_range_time ∧
    a.rangeSamplingRate = some s.range_sampling_rate ∧
    a.processingBandwidth = some s.range_bandwidth ∧
    (∃ wt, a.windowType = some wt ∧ s.window_type = wt.toLower) ∧
    a.windowCoefficient = some s.range_window_coefficient ∧
    a.rank = some s.rank ∧
    a.prf = some s.prf_raw_data ∧
    a.txPulseRampRate = some s.range_chirp_rate := by
  unfold SwathMetadata.mk? at h
  split at h
  · next nb rf sr ati srt rsr pb wt wc rk prf tx h0 h1 h2 h3 h4 h5 h6 h7 h8 h9 h10 h11 =>
    simp only [Option.some.injEq] at h
    subst h
    exact ⟨h0, h1, h2, h3, h4, h5, h6, ⟨wt, h7, rfl⟩, h8, h9, h10, h11⟩
  · simp at h

/- ----------------------------------------------------------------
   Claim C8
   ---------------------------------------------------------------- -/

/-- C8: when any required manifest or annotation path is absent, metadata
extraction fails (the Python code raises on the missing element, modelled
as `none`), and a successful extraction implies every required path was
present, with the extracted values carried through rather than defaulted. -/
theorem metadata_missing_path_fails :
    (∀ m : ManifestXml, manifestMissingRequired m → SLCMetadata.mk? m = none) ∧
    (∀ (m : ManifestXml) (s : SLCMetadata), SLCMetadata.mk? m = some s →
        ¬manifestMissingRequired m ∧ m.startTimeANX = some s.slc_start_anx ∧
          m.relativeOrbitNumber[0]? = some s.relative_orbit) ∧
    (∀ a : AnnotationXml, annotationMissingRequired a → SwathMetadata.mk? a = none) ∧
    (∀ (a : AnnotationXml) (s : SwathMetadata), SwathMetadata.mk? a = some s →
        ¬annotationMissingRequired a ∧ a.slantRangeTime = some s.slant_range_time ∧
          a.burstListCount = some s.n_bursts) := by
  have hslc : ∀ (m : ManifestXml) (s : SLCMetadata), SLCMetadata.mk? m = some s →
      ¬manifestMissingRequired m := by
    intro m s h hmiss
    obtain ⟨h0, h1, ⟨pd, h2, _⟩, h3, _⟩ := SLC_mk?_fields m s h
    rcases hmiss with hm | hm | hm | hm <;> simp_all
  have hsw : ∀ (a : AnnotationXml) (s : SwathMetadata), SwathMetadata.mk? a = some s →
      ¬annotationMissingRequired a := by
    intro a s h hmiss
    obtain ⟨h0, h1, h2, h3, h4, h5, h6, ⟨wt, h7, _⟩, h8, h9, h10, h11⟩ := Swath_mk?_fields a s h
    rcases hmiss with hm | hm | hm | hm | hm | hm | hm | hm | hm | hm | hm | hm <;> simp_all
  refine ⟨?_, ?_, ?_, ?_⟩
  · intro m hmiss
    cases hm : SLCMetadata.mk? m with
    | none => rfl
    | some s => exact absurd hmiss (hslc m s hm)
  · intro m s h
    obtain ⟨h0, _, _, h3, _⟩ := SLC_mk?_fields m s h
    exact ⟨hslc m s h, h3, h0⟩
  · intro a hmiss
    cases ha : SwathMetadata.mk? a with
    | none => rfl
    | some s => exact absurd hmiss (hsw a s ha)
  · intro a s h
    obtain ⟨h0, _, _, _, h4, _⟩ := Swath_mk?_fields a s h
    exact ⟨hsw a s h, h4, h0⟩

/-- C8 witness: extraction from a manifest lacking `startTimeANX` fails. -/
theorem metadata_missing_path_fails_witness :
    SLCMetadata.mk? demoManifestMissing = none :=
  metadata_missing_path_fails.1 demoManifestMissing (Or.inr (Or.inr (Or.inr rfl)))

/- ----------------------------------------------------------------
   Claim C9
   ---------------------------------------------------------------- -/

/-- C9: for every list of at least eight burst items and any two
worker-pool settings (including the fully serial `none` and the falsy
`some 0`), `edl_download_stack` returns the same identity-keyed results:
the threaded branch through the ordered `pqdm` pool and the serial branch
agree on every input. -/
theorem edl_download_stack_threads_eq (remote : String → String → List Nat)
    (item_list : List Item) (t t' : Option Nat) (h : 8 ≤ item_list.length) :
    edl_download_stack remote item_list t = edl_download_stack remote item_list t' := by
  unfold edl_download_stack pqdm
  cases t with
  | none =>
    cases t' with
    | none => rfl
    | some n => cases n <;> rfl
  | some n =>
    cases n with
    | zero =>
      cases t' with
      | none => rfl
      | some m => cases m <;> rfl
    | succ n =>
      cases t' with
      | none => rfl
      | some m => cases m <;> rfl

/-- C9 witness: a pool of four workers and the serial path agree on eight
fixture items. -/
theorem edl_download_stack_threads_eq_witness :
    edl_download_stack demoRemote demoItems (some 4)
      = edl_download_stack demoRemote demoItems none :=
  edl_download_stack_threads_eq demoRemote demoItems (some 4) none (by decide)
